import Mathlib

/-!
Verification of the mini backup server (`app.py`): a shallow embedding of
the job store, the rsync helpers, the execution pipeline and the
scheduler triggering discipline, with theorems checking the design
spec claims against the embedded code.

External effects (subprocess runs, the wall clock, the filesystem) are
modelled by passing the observed outcome of each effect as an explicit
argument (an oracle), and by explicit state records for the data file.
Definitions come first, theorems after.
-/

/-! ## Definitions -/

/-- Model of a Python `datetime.datetime` value as produced by
`datetime.now()`: calendar fields down to microseconds. -/
structure PyDateTime where
  year : Nat
  month : Nat
  day : Nat
  hour : Nat
  minute : Nat
  second : Nat
  microsecond : Nat
deriving DecidableEq, Repr

/-- Zero-pad a number to (at least) two digits, as `strftime` does for
`%m %d %H %M %S`. -/
def pad2 (n : Nat) : String :=
  if n < 10 then "0" ++ toString n else toString n

/-- Zero-pad a number to (at least) four digits, as `strftime` does for `%Y`. -/
def pad4 (n : Nat) : String :=
  if n < 10 then "000" ++ toString n
  else if n < 100 then "00" ++ toString n
  else if n < 1000 then "0" ++ toString n
  else toString n

/-- `t.strftime("%Y%m%d-%H%M%S")` from `run_rsync`: second resolution, the
microsecond field is dropped. -/
def strftime_ymd_hms (t : PyDateTime) : String :=
  pad4 t.year ++ pad2 t.month ++ pad2 t.day ++ "-" ++
    pad2 t.hour ++ pad2 t.minute ++ pad2 t.second

/-- The log artifact name `f"{job_id}-{timestamp}.log"` built in `run_rsync`
(relative to `LOG_DIR`, which is one fixed directory). -/
def logfile_name (job_id : String) (t : PyDateTime) : String :=
  job_id ++ "-" ++ strftime_ymd_hms t ++ ".log"

/-- The observable outcome of a `subprocess.run` invocation of the external
rsync tool: exit status plus captured stdout/stderr text. -/
structure ProcResult where
  returncode : Int
  stdout : String
  stderr : String
deriving DecidableEq, Repr

/-- The Python string method `strip()`: drop leading and trailing
whitespace. -/
def py_strip (s : String) : String :=
  String.mk (((s.data.dropWhile Char.isWhitespace).reverse.dropWhile
    Char.isWhitespace).reverse)

/-- `rsync_has_changes(src, dst)` from `app.py`, with the dry-run
subprocess invocation modelled by its observed `ProcResult`:
exit codes 0, 23, 24 are accepted, any other code raises
`RuntimeError` with message `rsync dry-run Fehler: ` plus the stripped
stderr (modelled as `Except.error`), and the returned flag is
`bool(res.stdout.strip())` — true iff the stripped output is nonempty. -/
def rsync_has_changes (res : ProcResult) : Except String Bool :=
  if res.returncode = 0 ∨ res.returncode = 23 ∨ res.returncode = 24 then
    Except.ok (py_strip res.stdout != "")
  else
    Except.error ("rsync dry-run Fehler: " ++ py_strip res.stderr)

/-- `run_rsync(src, dst, job_id)` from `app.py`, with the wall clock at
entry (`datetime.now()`) and the real rsync subprocess exit status passed
as oracles. Returns the created log artifact name together with the
result string: `OK – Log: ` plus the log reference for accepted exit codes
0, 23, 24 and `FEHLER (rc=...) – Details: ` plus the log reference
otherwise. The function is total: a failed mirror is an ordinary return
value, never an exception. -/
def run_rsync (job_id : String) (t : PyDateTime) (rc : Int) : String × String :=
  let logfile := logfile_name job_id t
  if rc = 0 ∨ rc = 23 ∨ rc = 24 then
    (logfile, "OK – Log: " ++ logfile)
  else
    (logfile, "FEHLER (rc=" ++ toString rc ++ ") – Details: " ++ logfile)

/-- The `Job` pydantic model from `app.py`: a `JobIn` (source, target, cron,
enabled) extended with the generated identifier and the optional
run-history fields, which default to `None`. -/
structure Job where
  id : String
  source : String
  target : String
  cron : String
  enabled : Bool
  last_run : Option String
  last_result : Option String
  last_change_detected : Option Bool
deriving DecidableEq, Repr

/-- The in-memory `JOBS` dictionary: an association list from job
identifier to `Job` record (Python dicts preserve insertion order and hold
each key once). -/
abbrev Table := List (String × Job)

/-- Dictionary lookup, `JOBS.get(job_id)`. -/
def alist_lookup {α : Type} : List (String × α) → String → Option α
  | [], _ => none
  | (k, v) :: rest, key => if k = key then some v else alist_lookup rest key

/-- In-place replacement of the value bound to a key, modelling mutation of
the `Job` object held in the `JOBS` dictionary. -/
def alist_update {α : Type} : List (String × α) → String → α → List (String × α)
  | [], _, _ => []
  | (k, v) :: rest, key, w =>
      if k = key then (k, w) :: rest else (k, v) :: alist_update rest key w

/-- Oracle inputs consumed by one `execute_job` run: the observed result of
the dry-run probe subprocess, the exit status of the real rsync, the wall
clock read in `run_rsync` (`datetime.now()` for the log name) and the wall
clock read for `last_run`
(`datetime.now().isoformat(timespec="seconds")`). -/
structure ExecEnv where
  probe : ProcResult
  sync_rc : Int
  log_time : PyDateTime
  now_iso : String

/-- Externally observable side effects of one `execute_job` run: how many
dry-run probe and real rsync subprocesses were launched, which log
artifacts were created, and how many times `save_jobs` rewrote the
persisted table. -/
structure Effects where
  probe_runs : Nat
  sync_runs : Nat
  logs_created : List String
  saves : Nat
deriving DecidableEq, Repr

/-- No observable side effect. -/
def no_effects : Effects := ⟨0, 0, [], 0⟩

/-- `execute_job(job_id)` from `app.py`. A missing or disabled job returns
immediately. Otherwise the dry-run probe is classified by
`rsync_has_changes`; on changes `run_rsync` runs once and its result string
is recorded, on no changes a skip marker is recorded, and the Python
`except Exception` branch (reached when the probe raises `RuntimeError`)
records `FEHLER: ` plus the diagnostic with `last_change_detected = None`.
Every non-trivial branch assigns `last_run`, `last_result` and
`last_change_detected` together and then calls `save_jobs(JOBS)`. -/
def execute_job (env : ExecEnv) (jobs : Table) (job_id : String) : Table × Effects :=
  match alist_lookup jobs job_id with
  | none => (jobs, no_effects)
  | some job =>
    if job.enabled then
      match rsync_has_changes env.probe with
      | Except.ok changed =>
          if changed then
            let rr := run_rsync job_id env.log_time env.sync_rc
            (alist_update jobs job_id
              { job with last_run := some env.now_iso,
                         last_result := some rr.2,
                         last_change_detected := some true },
             ⟨1, 1, [rr.1], 1⟩)
          else
            (alist_update jobs job_id
              { job with last_run := some env.now_iso,
                         last_result := some "Keine Änderungen – übersprungen",
                         last_change_detected := some false },
             ⟨1, 0, [], 1⟩)
      | Except.error e =>
          (alist_update jobs job_id
            { job with last_run := some env.now_iso,
                       last_result := some ("FEHLER: " ++ e),
                       last_change_detected := none },
           ⟨1, 0, [], 1⟩)
    else (jobs, no_effects)

/-- The `POST /jobs/{job_id}/run` handler `run_now` from `app.py`: 404 when
the identifier is not in the table (`HTTPException`), otherwise it calls
`execute_job` synchronously and answers 303. -/
def run_now (env : ExecEnv) (jobs : Table) (job_id : String) : Nat × Table × Effects :=
  match alist_lookup jobs job_id with
  | none => (404, jobs, no_effects)
  | some _ =>
      let r := execute_job env jobs job_id
      (303, r.1, r.2)

/-- The write `job.last_result = "FEHLER beim Planen: " + str(e)` performed
when `schedule_job` raises: in the `create_job` failure handler and in the
module startup rescheduling loop. Only `last_result` is assigned. -/
def schedule_failure_write (job : Job) (e : String) : Job :=
  { job with last_result := some ("FEHLER beim Planen: " ++ e) }

/-- Per-job triggering state: how many pipeline executions are in flight
through the apscheduler timer path (tracked by apscheduler itself via
`max_instances=1`) and how many through the `run_now` handler path (which
apscheduler does not see). -/
structure SchedState where
  timer_running : Nat
  manual_running : Nat
deriving DecidableEq, Repr

/-- Total number of pipeline executions currently in flight for the job. -/
def in_flight (s : SchedState) : Nat := s.timer_running + s.manual_running

/-- Triggering events for one job: a cron tick firing, a timer-path run
finishing, a `POST /jobs/{id}/run` request starting `execute_job`
directly, and a manual run finishing. -/
inductive TriggerEvent where
  | timer_fire
  | timer_finish
  | run_now_call
  | manual_finish
deriving DecidableEq, Repr

/-- One step of the triggering discipline in `app.py`. `schedule_job`
registers the timer with `max_instances=1` and `coalesce=True`, so a cron
tick that fires while the previous TIMER run of the same job is still
active is skipped; apscheduler only counts its own instances, so the guard
ignores manual runs. `run_now` calls `execute_job` directly on the request
thread with no guard at all. -/
def sched_step (s : SchedState) : TriggerEvent → SchedState
  | TriggerEvent.timer_fire =>
      if s.timer_running = 0 then { s with timer_running := s.timer_running + 1 } else s
  | TriggerEvent.timer_finish => { s with timer_running := s.timer_running - 1 }
  | TriggerEvent.run_now_call => { s with manual_running := s.manual_running + 1 }
  | TriggerEvent.manual_finish => { s with manual_running := s.manual_running - 1 }

/-- Run a trace of triggering events from the idle state. -/
def sched_run (es : List TriggerEvent) : SchedState := es.foldl sched_step ⟨0, 0⟩

/-- The JSON document fragment written by `json.dump` in `save_jobs` and
read by `json.load` in `load_jobs`. -/
inductive Json where
  | null
  | bool (b : Bool)
  | str (s : String)
  | obj (fields : List (String × Json))

/-- Serialization of an optional string field (absent becomes JSON null). -/
def encode_opt_str : Option String → Json
  | none => Json.null
  | some s => Json.str s

/-- Serialization of an optional boolean field (absent becomes JSON null). -/
def encode_opt_bool : Option Bool → Json
  | none => Json.null
  | some b => Json.bool b

/-- `job.dict()` as serialized by `save_jobs`: all `Job` fields in pydantic
declaration order, with absent optional fields as null. -/
def job_dict (j : Job) : Json :=
  Json.obj [("source", Json.str j.source), ("target", Json.str j.target),
            ("cron", Json.str j.cron), ("enabled", Json.bool j.enabled),
            ("id", Json.str j.id),
            ("last_run", encode_opt_str j.last_run),
            ("last_result", encode_opt_str j.last_result),
            ("last_change_detected", encode_opt_bool j.last_change_detected)]

/-- The full persisted document: the job table serialized wholesale,
`{jid: job.dict() for jid, job in jobs.items()}`. -/
def serialize_jobs (jobs : Table) : Json :=
  Json.obj (jobs.map fun p => (p.1, job_dict p.2))

/-- Read a required string field, as pydantic does when validating
`Job(**data)`. -/
def as_str : Json → Option String
  | Json.str s => some s
  | _ => none

/-- Read a required boolean field. -/
def as_bool : Json → Option Bool
  | Json.bool b => some b
  | _ => none

/-- Read an optional string field (null means absent). -/
def as_opt_str : Json → Option (Option String)
  | Json.null => some none
  | Json.str s => some (some s)
  | _ => none

/-- Read an optional boolean field (null means absent). -/
def as_opt_bool : Json → Option (Option Bool)
  | Json.null => some none
  | Json.bool b => some (some b)
  | _ => none

/-- The `JobIn` validator `must_be_abs_path`: `v.startswith("/")`. -/
def starts_with_slash (s : String) : Bool :=
  match s.data with
  | [] => false
  | c :: _ => c = '/'

/-- `Job(**data)` applied to one entry of the loaded document: every field
is taken from the JSON object by name, and the inherited pydantic
validator rejects source/target paths that are not absolute. Any shape
error raises (modelled as `none`). -/
def decode_job : Json → Option Job
  | Json.obj fields => do
      let source ← (alist_lookup fields "source").bind as_str
      let target ← (alist_lookup fields "target").bind as_str
      let cron ← (alist_lookup fields "cron").bind as_str
      let enabled ← (alist_lookup fields "enabled").bind as_bool
      let jid ← (alist_lookup fields "id").bind as_str
      let last_run ← (alist_lookup fields "last_run").bind as_opt_str
      let last_result ← (alist_lookup fields "last_result").bind as_opt_str
      let last_change_detected ← (alist_lookup fields "last_change_detected").bind as_opt_bool
      if starts_with_slash source && starts_with_slash target then
        some ⟨jid, source, target, cron, enabled, last_run, last_result, last_change_detected⟩
      else
        none
  | _ => none

/-- Decode every entry of the persisted top-level object, in order:
`{jid: Job(**data) for jid, data in raw.items()}`. -/
def decode_table : List (String × Json) → Option Table
  | [] => some []
  | (k, v) :: rest =>
      match decode_job v, decode_table rest with
      | some j, some t => some ((k, j) :: t)
      | _, _ => none

/-- `load_jobs()` from `app.py`: an absent data file yields the empty
table (not an error); otherwise the whole document is parsed and each
entry validated. -/
def load_jobs : Option Json → Option Table
  | none => some []
  | some (Json.obj fields) => decode_table fields
  | some _ => none

/-- The two on-disk artifacts `save_jobs` touches: the canonical
`backups.json` and the temporary `backups.tmp`, each holding a document or
absent. -/
structure FS where
  canonical : Option Json
  tmp : Option Json

/-- The elementary filesystem operations `save_jobs` performs: writing
content into the temporary file, and `tmp.replace(DATA_FILE)` — the atomic
rename of the temporary file over the canonical one. -/
inductive SaveOp where
  | write_tmp (content : Json)
  | rename_tmp

/-- Effect of one filesystem operation. The rename installs whatever the
temporary file holds as the new canonical content and removes the
temporary file; it never writes the canonical file in place. -/
def fs_step (fs : FS) : SaveOp → FS
  | SaveOp.write_tmp c => { fs with tmp := some c }
  | SaveOp.rename_tmp => { canonical := fs.tmp, tmp := none }

/-- Run a sequence of filesystem operations. -/
def fs_run (fs : FS) (ops : List SaveOp) : FS := ops.foldl fs_step fs

/-- The operation sequence of `save_jobs(jobs)`: serialize the full table
into the temporary file, then rename it over the canonical file. -/
def save_jobs_ops (jobs : Table) : List SaveOp :=
  [SaveOp.write_tmp (serialize_jobs jobs), SaveOp.rename_tmp]

/-- `save_jobs(jobs)` from `app.py`, run to completion. -/
def save_jobs (fs : FS) (jobs : Table) : FS := fs_run fs (save_jobs_ops jobs)

/-- A job record with full run history, used as concrete test data. -/
def c2_job : Job :=
  ⟨"j1", "/data/src", "/backup/dst", "* * * * *", true,
    some "2024-05-01T11:00:00", some "OK – Log: alt.log", some false⟩

/-- Oracle data for a run whose dry-run probe reports itemized changes and
whose real rsync exits 0. -/
def c2_env : ExecEnv :=
  { probe := ⟨0, ">f+++++++++ a.txt\n", ""⟩, sync_rc := 0,
    log_time := ⟨2024, 5, 1, 12, 0, 0, 0⟩, now_iso := "2024-05-01T12:00:00" }

/-- Oracle data for a run whose dry-run probe exits 35 with stderr text. -/
def c4_env : ExecEnv :=
  { probe := ⟨35, "", "kaputt"⟩, sync_rc := 0,
    log_time := ⟨2024, 5, 1, 12, 0, 0, 0⟩, now_iso := "2024-05-01T12:00:00" }

/-- A disabled job record with run history, used as concrete test data. -/
def c10_job : Job :=
  ⟨"j2", "/data/src", "/backup/dst", "0 2 * * *", false,
    some "2024-05-01T11:00:00", some "OK – Log: alt.log", some true⟩

/-- A freshly created job whose optional run-history fields are all
absent. -/
def c9_job : Job :=
  ⟨"j3", "/data/src", "/backup/dst", "0 3 * * *", true, none, none, none⟩

/-- An empty filesystem: no canonical data file, no temporary file. -/
def c9_fs : FS := { canonical := none, tmp := none }

/-! ## Helper lemmas -/

theorem string_append_cancel_left {a b c : String} (h : a ++ b = a ++ c) : b = c := by
  have hd : a.data ++ b.data = a.data ++ c.data := by
    have := congrArg String.data h
    simpa [String.data_append] using this
  have := List.append_cancel_left hd
  cases b; cases c; exact congrArg String.mk this

theorem string_append_cancel_right {a b c : String} (h : a ++ c = b ++ c) : a = b := by
  have hd : a.data ++ c.data = b.data ++ c.data := by
    have := congrArg String.data h
    simpa [String.data_append] using this
  have := List.append_cancel_right hd
  cases a; cases b; exact congrArg String.mk this

/-- The log artifact created by `run_rsync` is always the one named by the
job identifier and the formatted start timestamp, whatever the exit
code. -/
theorem run_rsync_fst (job_id : String) (t : PyDateTime) (rc : Int) :
    (run_rsync job_id t rc).1 = logfile_name job_id t := by
  unfold run_rsync
  by_cases h : rc = 0 ∨ rc = 23 ∨ rc = 24 <;> simp [h]

/-- Updating a key that is present in an association list makes lookup of
that key return the new value. -/
theorem alist_lookup_update_self {α : Type} (l : List (String × α))
    (k : String) (v w : α) (h : alist_lookup l k = some w) :
    alist_lookup (alist_update l k v) k = some v := by
  induction l with
  | nil => simp [alist_lookup] at h
  | cons hd tl ih =>
    obtain ⟨k', v'⟩ := hd
    by_cases hk : k' = k
    · subst hk
      simp [alist_lookup, alist_update]
    · simp only [alist_lookup, alist_update, if_neg hk] at h ⊢
      exact ih h

/-- Decoding inverts serialization on any job record whose source and
target satisfy the absolute-path validator. -/
theorem decode_job_job_dict (j : Job)
    (hs : starts_with_slash j.source = true)
    (ht : starts_with_slash j.target = true) :
    decode_job (job_dict j) = some j := by
  obtain ⟨jid, source, target, cron, enabled, lr, lres, lcd⟩ := j
  simp only at hs ht
  simp only [decode_job, job_dict, alist_lookup]
  cases lr <;> cases lres <;> cases lcd <;>
    simp [as_str, as_bool, as_opt_str, as_opt_bool, encode_opt_str, encode_opt_bool, hs, ht]

/-- Table-level round trip: decoding the serialized table entry by entry
reconstructs the table. -/
theorem decode_table_serialize (jobs : Table)
    (hvalid : ∀ p ∈ jobs, starts_with_slash p.2.source = true ∧
      starts_with_slash p.2.target = true) :
    decode_table (jobs.map fun p => (p.1, job_dict p.2)) = some jobs := by
  induction jobs with
  | nil => rfl
  | cons p tl ih =>
    obtain ⟨k, j⟩ := p
    have hj := hvalid (k, j) (List.mem_cons_self _ _)
    have htl : ∀ q ∈ tl, starts_with_slash q.2.source = true ∧
        starts_with_slash q.2.target = true :=
      fun q hq => hvalid q (List.mem_cons_of_mem _ hq)
    simp only [List.map, decode_table]
    rw [decode_job_job_dict j hj.1 hj.2, ih htl]

/-- Among timer-path firings alone, the apscheduler option
`max_instances=1` does keep at most one execution in flight: every trace
without a `run_now` call stays at `in_flight` at most one. The failure in
claim C1 is specific to the manual path. -/
theorem timer_only_traces_single_instance (es : List TriggerEvent)
    (h : TriggerEvent.run_now_call ∉ es) : in_flight (sched_run es) ≤ 1 := by
  suffices haux : ∀ (l : List TriggerEvent) (s : SchedState),
      TriggerEvent.run_now_call ∉ l → s.timer_running ≤ 1 → s.manual_running = 0 →
      in_flight (l.foldl sched_step s) ≤ 1 by
    exact haux es ⟨0, 0⟩ h (by decide) rfl
  intro l
  induction l with
  | nil =>
    intro s _ h1 h2
    simp only [List.foldl, in_flight, h2]
    omega
  | cons e tl ih =>
    intro s hmem h1 h2
    have htl : TriggerEvent.run_now_call ∉ tl := fun hx => hmem (List.mem_cons_of_mem e hx)
    simp only [List.foldl]
    cases e with
    | timer_fire =>
      refine ih (sched_step s TriggerEvent.timer_fire) htl ?_ ?_
      · by_cases h0 : s.timer_running = 0
        · simp [sched_step, h0]
        · simpa [sched_step, h0] using h1
      · by_cases h0 : s.timer_running = 0 <;> simp [sched_step, h0, h2]
    | timer_finish =>
      refine ih (sched_step s TriggerEvent.timer_finish) htl ?_ ?_
      · simp only [sched_step]
        omega
      · simp [sched_step, h2]
    | run_now_call =>
      exact absurd (List.mem_cons_self _ tl) hmem
    | manual_finish =>
      refine ih (sched_step s TriggerEvent.manual_finish) htl ?_ ?_
      · simp only [sched_step]
        omega
      · simp [sched_step, h2]

/-! ## Claim theorems -/

/-- Claim C1: the claim states that a manual `run_now` racing a cron firing
for the same job can never yield two concurrent pipeline executions. The
code contradicts it: the timer path is guarded by apscheduler
(`max_instances=1`), but `run_now` calls `execute_job` directly with no
per-job guard, so the trace in which a cron firing is still active when
the `run_now` request arrives reaches two executions in flight against the
same target tree. -/
theorem run_now_bypasses_single_instance_guard :
    in_flight (sched_run [TriggerEvent.timer_fire, TriggerEvent.run_now_call]) = 2 := by
  decide

/-- Claim C2 counterexample: the `FEHLER beim Planen` write (performed by
the `create_job` failure handler and by the startup rescheduling loop)
updates `last_result` while leaving `last_run` and `last_change_detected`
untouched, so the three run-history fields are NOT always written as a
consistent triple. -/
theorem schedule_failure_write_updates_result_alone :
    (schedule_failure_write c2_job "boom").last_result ≠ c2_job.last_result ∧
    (schedule_failure_write c2_job "boom").last_run = c2_job.last_run ∧
    (schedule_failure_write c2_job "boom").last_change_detected =
      c2_job.last_change_detected := by
  refine ⟨?_, rfl, rfl⟩
  decide

/-- Claim C2 (amended): within the pipeline `execute_job`, every update of
the run-history fields assigns `last_run`, `last_result` and
`last_change_detected` together as one consistent triple (in the success,
skip and error branches alike); the exception is the scheduling-failure
write in `create_job` and the startup loop, which sets `last_result`
alone. -/
theorem execute_job_writes_history_triple
    (env : ExecEnv) (jobs : Table) (job_id : String) (job : Job)
    (hlook : alist_lookup jobs job_id = some job)
    (hen : job.enabled = true) :
    ∃ r c, alist_lookup (execute_job env jobs job_id).1 job_id =
      some { job with last_run := some env.now_iso,
                      last_result := some r,
                      last_change_detected := c } := by
  unfold execute_job
  rw [hlook]
  simp only [hen, if_true]
  cases hprobe : rsync_has_changes env.probe with
  | error e =>
    exact ⟨_, _, alist_lookup_update_self jobs job_id _ job hlook⟩
  | ok changed =>
    cases changed with
    | true =>
      simp only [if_true]
      exact ⟨_, _, alist_lookup_update_self jobs job_id _ job hlook⟩
    | false =>
      simp only [if_false]
      exact ⟨_, _, alist_lookup_update_self jobs job_id _ job hlook⟩

/-- Witness for the amended C2 at a concrete enabled job. -/
theorem execute_job_writes_history_triple_witness :
    ∃ r c, alist_lookup (execute_job c2_env [("j1", c2_job)] "j1").1 "j1" =
      some { c2_job with last_run := some c2_env.now_iso,
                         last_result := some r,
                         last_change_detected := c } :=
  execute_job_writes_history_triple c2_env [("j1", c2_job)] "j1" c2_job
    (by decide) (by decide)

/-- Claim C3 counterexample: two distinct run start instants (same second,
different microseconds) for the same job yield the SAME log file name, so
rapid repeated runs for one job can collide. -/
theorem logfile_name_collision_same_second :
    (⟨2024, 5, 1, 12, 0, 0, 0⟩ : PyDateTime) ≠ ⟨2024, 5, 1, 12, 0, 0, 500000⟩ ∧
    logfile_name "abc123" ⟨2024, 5, 1, 12, 0, 0, 0⟩ =
      logfile_name "abc123" ⟨2024, 5, 1, 12, 0, 0, 500000⟩ := by
  constructor
  · decide
  · rfl

/-- Claim C3 (amended): the log artifact name is built from the job
identifier and the start timestamp formatted at second resolution; two runs
of the same job receive the same log name exactly when their start
timestamps format identically at second resolution — runs whose
second-resolution timestamps format differently never collide, while runs
starting within the same second do collide. -/
theorem logfile_name_collision_iff_same_second_format
    (job_id : String) (t1 t2 : PyDateTime) :
    logfile_name job_id t1 = logfile_name job_id t2 ↔
      strftime_ymd_hms t1 = strftime_ymd_hms t2 := by
  constructor
  · intro h
    unfold logfile_name at h
    have h1 : job_id ++ "-" ++ (strftime_ymd_hms t1 ++ ".log") =
        job_id ++ "-" ++ (strftime_ymd_hms t2 ++ ".log") := by
      simpa [String.append_assoc] using h
    have h2 := string_append_cancel_left h1
    exact string_append_cancel_right h2
  · intro h
    unfold logfile_name
    rw [h]

/-- Claim C4: when the change-detection probe fails (non-accepted exit
status), `execute_job` records `FEHLER: ` plus the diagnostic in
`last_result`, records `last_change_detected` as absent, persists the
table once, and never launches the mutating sync nor creates a log
artifact; the failure is swallowed (`execute_job` is total), not
propagated to the scheduler. -/
theorem execute_job_detection_error_no_sync
    (env : ExecEnv) (jobs : Table) (job_id : String) (job : Job) (e : String)
    (hlook : alist_lookup jobs job_id = some job)
    (hen : job.enabled = true)
    (herr : rsync_has_changes env.probe = Except.error e) :
    (execute_job env jobs job_id).2.sync_runs = 0 ∧
    (execute_job env jobs job_id).2.logs_created = [] ∧
    (execute_job env jobs job_id).2.saves = 1 ∧
    alist_lookup (execute_job env jobs job_id).1 job_id =
      some { job with last_run := some env.now_iso,
                      last_result := some ("FEHLER: " ++ e),
                      last_change_detected := none } := by
  unfold execute_job
  rw [hlook]
  simp only [hen, if_true]
  rw [herr]
  exact ⟨rfl, rfl, rfl, alist_lookup_update_self jobs job_id _ job hlook⟩

/-- Witness for C4 at a concrete failing probe (exit code 35). -/
theorem execute_job_detection_error_no_sync_witness :
    (execute_job c4_env [("j1", c2_job)] "j1").2.sync_runs = 0 ∧
    (execute_job c4_env [("j1", c2_job)] "j1").2.logs_created = [] ∧
    (execute_job c4_env [("j1", c2_job)] "j1").2.saves = 1 ∧
    alist_lookup (execute_job c4_env [("j1", c2_job)] "j1").1 "j1" =
      some { c2_job with
               last_run := some c4_env.now_iso,
               last_result := some ("FEHLER: " ++ "rsync dry-run Fehler: kaputt"),
               last_change_detected := none } :=
  execute_job_detection_error_no_sync c4_env [("j1", c2_job)] "j1" c2_job
    "rsync dry-run Fehler: kaputt" (by decide) (by decide) (by rfl)

/-- Claim C5: for an enabled job whose probe succeeds, the mutating sync
runs exactly once iff the detector reported changes (creating exactly the
corresponding log artifacts), and `last_change_detected` is set to exactly
the boolean the detector returned. -/
theorem execute_job_sync_iff_changes
    (env : ExecEnv) (jobs : Table) (job_id : String) (job : Job) (changed : Bool)
    (hlook : alist_lookup jobs job_id = some job)
    (hen : job.enabled = true)
    (hok : rsync_has_changes env.probe = Except.ok changed) :
    (execute_job env jobs job_id).2.sync_runs = (if changed then 1 else 0) ∧
    (execute_job env jobs job_id).2.logs_created =
      (if changed then [logfile_name job_id env.log_time] else []) ∧
    ∃ r, alist_lookup (execute_job env jobs job_id).1 job_id =
      some { job with last_run := some env.now_iso,
                      last_result := some r,
                      last_change_detected := some changed } := by
  unfold execute_job
  rw [hlook]
  simp only [hen, if_true]
  rw [hok]
  cases changed with
  | true =>
    refine ⟨rfl, ?_, _, alist_lookup_update_self jobs job_id _ job hlook⟩
    simp [run_rsync_fst]
  | false =>
    exact ⟨rfl, rfl, _, alist_lookup_update_self jobs job_id _ job hlook⟩

/-- Witness for C5 at a concrete probe reporting changes. -/
theorem execute_job_sync_iff_changes_witness :
    (execute_job c2_env [("j1", c2_job)] "j1").2.sync_runs = (if true then 1 else 0) ∧
    (execute_job c2_env [("j1", c2_job)] "j1").2.logs_created =
      (if true then [logfile_name "j1" c2_env.log_time] else []) ∧
    ∃ r, alist_lookup (execute_job c2_env [("j1", c2_job)] "j1").1 "j1" =
      some { c2_job with last_run := some c2_env.now_iso,
                         last_result := some r,
                         last_change_detected := some true } :=
  execute_job_sync_iff_changes c2_env [("j1", c2_job)] "j1" c2_job true
    (by decide) (by decide) (by rfl)

/-- Claim C6: `rsync_has_changes` reports changes exactly when the preview
probe produced non-empty itemization output; exit statuses 0, 23, 24 are
accepted, and any other status raises an error carrying the tool
diagnostic (stderr) text. -/
theorem rsync_has_changes_classification (res : ProcResult) :
    match rsync_has_changes res with
    | Except.ok b =>
        (res.returncode = 0 ∨ res.returncode = 23 ∨ res.returncode = 24) ∧
          (b = true ↔ py_strip res.stdout ≠ "")
    | Except.error msg =>
        ¬(res.returncode = 0 ∨ res.returncode = 23 ∨ res.returncode = 24) ∧
          msg = "rsync dry-run Fehler: " ++ py_strip res.stderr := by
  unfold rsync_has_changes
  by_cases h : res.returncode = 0 ∨ res.returncode = 23 ∨ res.returncode = 24
  · simp [h]
  · simp [h]

/-- Claim C7: `run_rsync` never raises: it is a total function whose result
classifies the tool exit status against the same accepted set {0, 23, 24}
as the detector, returning an OK outcome with the log reference for
accepted statuses and a FEHLER outcome carrying the exit code and log
reference otherwise. -/
theorem run_rsync_outcome_classification (job_id : String) (t : PyDateTime) (rc : Int) :
    (run_rsync job_id t rc).1 = logfile_name job_id t ∧
    ((rc = 0 ∨ rc = 23 ∨ rc = 24) →
      (run_rsync job_id t rc).2 = "OK – Log: " ++ logfile_name job_id t) ∧
    (¬(rc = 0 ∨ rc = 23 ∨ rc = 24) →
      (run_rsync job_id t rc).2 =
        "FEHLER (rc=" ++ toString rc ++ ") – Details: " ++ logfile_name job_id t) := by
  unfold run_rsync
  by_cases h : rc = 0 ∨ rc = 23 ∨ rc = 24
  · simp [h]
  · simp [h]

/-- Witness for C7 at concrete exit codes 0 (accepted) and 12 (rejected). -/
theorem run_rsync_outcome_classification_witness :
    (run_rsync "abc123" ⟨2024, 5, 1, 12, 0, 0, 0⟩ 0).2 =
        "OK – Log: " ++ logfile_name "abc123" ⟨2024, 5, 1, 12, 0, 0, 0⟩ ∧
    (run_rsync "abc123" ⟨2024, 5, 1, 12, 0, 0, 0⟩ 12).2 =
        "FEHLER (rc=" ++ toString (12 : Int) ++ ") – Details: " ++
          logfile_name "abc123" ⟨2024, 5, 1, 12, 0, 0, 0⟩ := by
  constructor
  · exact (run_rsync_outcome_classification "abc123" ⟨2024, 5, 1, 12, 0, 0, 0⟩ 0).2.1
      (Or.inl rfl)
  · exact (run_rsync_outcome_classification "abc123" ⟨2024, 5, 1, 12, 0, 0, 0⟩ 12).2.2
      (by decide)

/-- Claim C8: `save_jobs` persists the full table as a single atomic
replacement. The completed sequence installs exactly the serialized table
as the canonical content (and leaves no temporary file behind), while an
interruption at any point before the rename — before any write, after any
incomplete write into the temporary file, or after the complete write —
leaves the previously committed canonical content untouched, so the
canonical file never holds an incomplete write. -/
theorem save_jobs_atomic_replace (fs : FS) (jobs : Table) (half_written : Json) :
    (save_jobs fs jobs).canonical = some (serialize_jobs jobs) ∧
    (save_jobs fs jobs).tmp = none ∧
    (fs_run fs []).canonical = fs.canonical ∧
    (fs_run fs [SaveOp.write_tmp half_written]).canonical = fs.canonical ∧
    (fs_run fs [SaveOp.write_tmp (serialize_jobs jobs)]).canonical = fs.canonical :=
  ⟨rfl, rfl, rfl, rfl, rfl⟩

/-- Claim C9: `save_jobs` followed by `load_jobs` reconstructs the
identical job table — including jobs whose optional run-history fields are
absent — for every table whose paths satisfy the creation-time validator
(an invariant of all tables the application builds); and when no persisted
file exists, `load_jobs` returns the empty table rather than an error. -/
theorem save_load_round_trip (fs : FS) (jobs : Table)
    (hvalid : ∀ p ∈ jobs, starts_with_slash p.2.source = true ∧
      starts_with_slash p.2.target = true) :
    load_jobs (save_jobs fs jobs).canonical = some jobs ∧
    load_jobs none = some [] := by
  refine ⟨?_, rfl⟩
  show load_jobs (some (serialize_jobs jobs)) = some jobs
  simp only [load_jobs, serialize_jobs]
  exact decode_table_serialize jobs hvalid

/-- Witness for C9 on a two-job table containing a job with all optional
fields absent, starting from an empty filesystem. -/
theorem save_load_round_trip_witness :
    load_jobs (save_jobs c9_fs [("j3", c9_job), ("j1", c2_job)]).canonical =
      some [("j3", c9_job), ("j1", c2_job)] ∧
    load_jobs none = some [] :=
  save_load_round_trip c9_fs [("j3", c9_job), ("j1", c2_job)] (by decide)

/-- Claim C10: calling the execution entry point on an existing but
disabled job is a complete no-op: no probe, no sync, no log artifact, no
save, the table (hence every field of the job record) unchanged; and the
`run_now` endpoint still answers 303 (success) while changing nothing. -/
theorem execute_disabled_job_noop
    (env : ExecEnv) (jobs : Table) (job_id : String) (job : Job)
    (hlook : alist_lookup jobs job_id = some job)
    (hdis : job.enabled = false) :
    execute_job env jobs job_id = (jobs, no_effects) ∧
    run_now env jobs job_id = (303, jobs, no_effects) := by
  have h1 : execute_job env jobs job_id = (jobs, no_effects) := by
    unfold execute_job
    rw [hlook]
    simp [hdis]
  refine ⟨h1, ?_⟩
  unfold run_now
  rw [hlook]
  simp [h1]

/-- Witness for C10 at a concrete disabled job. -/
theorem execute_disabled_job_noop_witness :
    execute_job c2_env [("j2", c10_job)] "j2" = ([("j2", c10_job)], no_effects) ∧
    run_now c2_env [("j2", c10_job)] "j2" = (303, [("j2", c10_job)], no_effects) :=
  execute_disabled_job_noop c2_env [("j2", c10_job)] "j2" c10_job
    (by decide) (by decide)
